import Mathlib

/-!
Shallow embedding of the particle-effects module (`objects/particle.py`):
`Particle`, `ExplosionParticle`, `ExplosionManager`, `Fireball`.

Modelling decisions:
* Python floats are modelled by `ℚ`; every operation the claims touch is
  `+`, `-`, `*`, `/`, `max` and comparisons, which are exact on `ℚ`.
  The literals 0.3, 0.1, 0.2, 0.15 are written 3/10, 1/10, 1/5, 3/20.
* Python ints (`life`, `max_life`, `glow_size`, counters) are `ℤ`/`ℕ`.
* Randomness (`random.uniform`, `random.randint`, `random.random`,
  `random.choice`) is modelled by explicit draw parameters (`EDraw`,
  `FDraw`): each constructor/update takes the values the Python code
  would have sampled.
* `math.sqrt` in `Fireball.__init__` has no exact counterpart on `ℚ`;
  it is modelled relationally: the constructor takes the distance as a
  parameter `dist`, and theorems about it carry the hypotheses
  `0 ≤ dist` and `dist * dist = dx^2 + dy^2` characterising the square
  root.
* Python `int()` applied to a float truncates toward zero; `truncQ`
  models it. The renderer is modelled as a list of emitted draw
  commands (`DrawCmd`).
-/

/-- An RGB colour triple, as the Python 3-tuples. -/
abbrev Color := ℕ × ℕ × ℕ

/-- Python `int()` on a float: truncation toward zero. -/
def truncQ (q : ℚ) : ℤ := if q < 0 then ⌈q⌉ else ⌊q⌋

/-- A drawing command emitted to the renderer (`pygame.draw.circle`). -/
inductive DrawCmd where
  | circle (color : Color) (center : ℤ × ℤ) (radius : ℤ)
deriving DecidableEq

/-- State of a `Particle` (`particle.py`, class `Particle`). -/
structure Particle where
  x : ℚ
  y : ℚ
  color : Color
  size : ℚ
  velocity_x : ℚ
  velocity_y : ℚ
  gravity : ℚ
  lifetime : ℕ
  age : ℕ
deriving DecidableEq

/-- `Particle.__init__(x, y, color)`: `size`, `velocity_x`, `velocity_y`
are sampled (`random.randint(3, 6)`, `random.uniform(-3, 3)`,
`random.uniform(-5, -2)`); they are passed here as the draw parameters
`size`, `vx`, `vy`.  `gravity = 0.3`, `lifetime = 30`, `age = 0`. -/
def Particle.init (x y : ℚ) (color : Color) (size : ℤ) (vx vy : ℚ) : Particle :=
  { x := x, y := y, color := color, size := (size : ℚ),
    velocity_x := vx, velocity_y := vy,
    gravity := 3/10, lifetime := 30, age := 0 }

/-- `Particle.update`: x += velocity_x; y += velocity_y;
velocity_y += gravity; age += 1; size = max(1, size - 0.1). -/
def Particle.update (p : Particle) : Particle :=
  { p with
    x := p.x + p.velocity_x
    y := p.y + p.velocity_y
    velocity_y := p.velocity_y + p.gravity
    age := p.age + 1
    size := max 1 (p.size - 1/10) }

/-- `Particle.draw(screen)`: if age < lifetime, draw a filled circle at
`(int(x), int(y))` with radius `int(size)` and the particle's colour. -/
def Particle.draw (p : Particle) : List DrawCmd :=
  if p.age < p.lifetime then
    [DrawCmd.circle p.color (truncQ p.x, truncQ p.y) (truncQ p.size)]
  else []

/-- `Particle.is_dead`: `age >= lifetime or size <= 1`. -/
def Particle.is_dead (p : Particle) : Bool :=
  decide (p.lifetime ≤ p.age) || decide (p.size ≤ 1)

/-- The values `ExplosionParticle.__init__` samples:
`angle = random.uniform(0, 2π)` enters only through `cos angle` and
`sin angle`, kept here as the unconstrained draws `cosAngle`, `sinAngle`;
`speed = random.uniform(2, 8)`; `size = random.randint(4, 10)`;
`life = random.randint(25, 45)`; `glowSize = random.randint(15, 30)`. -/
structure EDraw where
  cosAngle : ℚ
  sinAngle : ℚ
  speed : ℚ
  size : ℤ
  life : ℤ
  glowSize : ℤ
deriving DecidableEq

/-- State of an `ExplosionParticle`. -/
structure ExplosionParticle where
  x : ℚ
  y : ℚ
  vx : ℚ
  vy : ℚ
  color : Color
  size : ℚ
  life : ℤ
  max_life : ℤ
  glow_size : ℤ
deriving DecidableEq

/-- `ExplosionParticle.__init__(x, y, color)` with the sampled values
supplied by `d`: vx = cos(angle)·speed, vy = sin(angle)·speed,
`max_life` is a snapshot of the initial `life`. -/
def ExplosionParticle.init (x y : ℚ) (color : Color) (d : EDraw) : ExplosionParticle :=
  { x := x, y := y,
    vx := d.cosAngle * d.speed, vy := d.sinAngle * d.speed,
    color := color, size := (d.size : ℚ),
    life := d.life, max_life := d.life, glow_size := d.glowSize }

/-- `ExplosionParticle.update`: x += vx; y += vy; vy += 0.2; life -= 1;
size = max(1, size - 0.15); returns `self.life > 0` (post-mutation).
The Python method mutates in place and returns a bool; here it returns
the new state paired with the returned boolean. -/
def ExplosionParticle.update (p : ExplosionParticle) : ExplosionParticle × Bool :=
  let p' := { p with
    x := p.x + p.vx
    y := p.y + p.vy
    vy := p.vy + 1/5
    life := p.life - 1
    size := max 1 (p.size - 3/20) }
  (p', decide (0 < p'.life))

/-- The state part of `ExplosionParticle.update` (the mutated object). -/
def ExplosionParticle.step (p : ExplosionParticle) : ExplosionParticle :=
  (ExplosionParticle.update p).1

/-- State of an `ExplosionManager`: its list `self.particles`. -/
structure ExplosionManager where
  particles : List ExplosionParticle
deriving DecidableEq

/-- `ExplosionManager.create_explosion(x, y, color=(255,200,50),
num_particles=50)`: appends `num_particles` particles with `color`, then
20 with (255, 255, 255), then 15 with (255, 150, 0).  `draws` supplies
the random samples of the successive `ExplosionParticle` constructors. -/
def ExplosionManager.create_explosion (m : ExplosionManager) (x y : ℚ)
    (color : Color) (num_particles : ℕ) (draws : ℕ → EDraw) : ExplosionManager :=
  { particles := m.particles
      ++ (List.range num_particles).map
            (fun i => ExplosionParticle.init x y color (draws i))
      ++ (List.range 20).map
            (fun i => ExplosionParticle.init x y (255, 255, 255) (draws (num_particles + i)))
      ++ (List.range 15).map
            (fun i => ExplosionParticle.init x y (255, 150, 0) (draws (num_particles + 20 + i))) }

/-- `ExplosionManager.update`:
`self.particles = [p for p in self.particles if p.update()]` — every
particle is updated (mutated), and exactly those whose `update` returned
true are kept, in order. -/
def ExplosionManager.update (m : ExplosionManager) : ExplosionManager :=
  { particles := m.particles.filterMap (fun p =>
      let r := ExplosionParticle.update p
      if r.2 then some r.1 else none) }

/-- The values `Fireball.update` samples each frame:
`spawnTrail` models `random.random() < 0.3`; `trailColor` models
`random.choice([(255,150,0), (255,200,50), (255,100,0)])`; `pdraw`
supplies the spawned trail particle's constructor samples. -/
structure FDraw where
  spawnTrail : Bool
  trailColor : Color
  pdraw : EDraw
deriving DecidableEq

/-- State of a `Fireball`.  The optional sprite
(`self.fireball_image`, a pygame surface or None) is modelled as an
opaque `Option Unit`: the claims never inspect the image itself. -/
structure Fireball where
  x : ℚ
  y : ℚ
  target_x : ℚ
  target_y : ℚ
  speed : ℚ
  active : Bool
  trail_particles : List ExplosionParticle
  fireball_image : Option Unit
  vx : ℚ
  vy : ℚ
  radius : ℚ
deriving DecidableEq

/-- `Fireball.__init__(x, y, target_x, target_y, fireball_image)`.
`math.sqrt(dx**2 + dy**2)` is modelled relationally: `dist` is the
sampled square root, and theorems carry `0 ≤ dist` and
`dist * dist = dx^2 + dy^2` as hypotheses.  If `dist > 0` the velocity
is the direction to the target normalised to `speed = 12`; otherwise
`(0, -speed)`.  `radius = 15`, `active = True`, empty trail. -/
def Fireball.init (x y target_x target_y : ℚ) (img : Option Unit) (dist : ℚ) : Fireball :=
  let dx := target_x - x
  let dy := target_y - y
  { x := x, y := y, target_x := target_x, target_y := target_y,
    speed := 12, active := true, trail_particles := [], fireball_image := img,
    vx := if 0 < dist then dx / dist * 12 else 0,
    vy := if 0 < dist then dy / dist * 12 else -12,
    radius := 15 }

/-- `Fireball.update`: x += vx; y += vy; with probability 0.3 append one
trail `ExplosionParticle` at the new position; prune the trail keeping
the particles whose `update` returned true; if the new position is off
screen (y < -50 or y > 800 or x < -50 or x > 750) set `active = False`. -/
def Fireball.update (f : Fireball) (d : FDraw) : Fireball :=
  let x' := f.x + f.vx
  let y' := f.y + f.vy
  let trail1 := if d.spawnTrail
    then f.trail_particles ++ [ExplosionParticle.init x' y' d.trailColor d.pdraw]
    else f.trail_particles
  let trail2 := trail1.filterMap (fun p =>
      let r := ExplosionParticle.update p
      if r.2 then some r.1 else none)
  { f with
    x := x'
    y := y'
    trail_particles := trail2
    active := if y' < -50 ∨ 800 < y' ∨ x' < -50 ∨ 750 < x' then false else f.active }

/-! Concrete sample states, used to instantiate the theorems below on
closed inputs. -/

/-- A sample `ExplosionParticle` as constructed at the origin with the
default explosion colour and the draws cos = 1, sin = 0, speed = 2,
size = 4, life = 25, glow = 15. -/
def ep0 : ExplosionParticle := ExplosionParticle.init 0 0 (255, 200, 50) ⟨1, 0, 2, 4, 25, 15⟩

/-- A sample `ExplosionParticle` state on its last frame of life
(`life = 1`), as reached after 24 updates of a particle born with
`life = 25`. -/
def ep1 : ExplosionParticle :=
  { x := 24, y := 0, vx := 1, vy := 0, color := (255, 200, 50),
    size := 4, life := 1, max_life := 25, glow_size := 15 }

/-- A sample manager holding one particle. -/
def m0 : ExplosionManager := ⟨[ep0]⟩

/-- A sample `Particle` as constructed at the origin with draws
size = 3, vx = 1, vy = -2. -/
def p0 : Particle := Particle.init 0 0 (255, 0, 0) 3 1 (-2)

/-- A sample frame draw for `Fireball.update`: no trail spawn this
frame. -/
def d0 : FDraw := { spawnTrail := false, trailColor := (255, 150, 0), pdraw := ⟨1, 0, 2, 4, 25, 15⟩ }

/-- A sample active `Fireball` at x = 755 moving right at vx = 5, so
its next update carries it to x = 760. -/
def f0 : Fireball :=
  { x := 755, y := 0, target_x := 760, target_y := 0, speed := 12, active := true,
    trail_particles := [], fireball_image := none, vx := 5, vy := 0, radius := 15 }

/-- The sample fireball after deactivation. -/
def f9 : Fireball := { f0 with active := false }

/-- A sample live `Particle` at x = 2.7, where truncation toward zero
(2) and rounding (3) disagree. -/
def p8 : Particle :=
  { x := 27/10, y := 0, color := (255, 0, 0), size := 3, velocity_x := 0,
    velocity_y := 0, gravity := 3/10, lifetime := 30, age := 0 }

/-- The sample particle `p8` aged past its lifetime. -/
def p8dead : Particle := { p8 with age := 30 }

/-! Helper lemmas. -/

/-- `Particle.update` increments `age` by one, so `n` updates add `n`. -/
theorem particle_iterate_age (p : Particle) (n : ℕ) :
    (Particle.update^[n] p).age = p.age + n := by
  induction n with
  | zero => simp
  | succ k ih =>
    rw [Function.iterate_succ_apply']
    show (Particle.update _).age = _
    simp [Particle.update, ih]
    omega

/-- `Particle.update` never changes `lifetime`. -/
theorem particle_iterate_lifetime (p : Particle) (n : ℕ) :
    (Particle.update^[n] p).lifetime = p.lifetime := by
  induction n with
  | zero => simp
  | succ k ih =>
    rw [Function.iterate_succ_apply']
    exact ih

/-- A single `Particle.update` clamps `size` at the floor 1. -/
theorem particle_update_size_ge_one (p : Particle) : 1 ≤ (Particle.update p).size :=
  le_max_left _ _

/-- A single `ExplosionParticle` update clamps `size` at the floor 1. -/
theorem estep_size_ge_one (q : ExplosionParticle) : 1 ≤ (ExplosionParticle.step q).size :=
  le_max_left _ _

/-- Every particle the manager keeps after one `update` call was kept
because its own `update` reported `life > 0`. -/
theorem mem_update_alive (m : ExplosionManager) (q : ExplosionParticle)
    (hq : q ∈ (ExplosionManager.update m).particles) : 0 < q.life := by
  simp only [ExplosionManager.update, List.mem_filterMap] at hq
  obtain ⟨a, _, hEq⟩ := hq
  by_cases h2 : (ExplosionParticle.update a).2
  · simp only [h2, if_pos] at hEq
    have h3 : (ExplosionParticle.update a).2 = true := h2
    simp only [ExplosionParticle.update, decide_eq_true_eq] at h3
    have h4 : q.life = a.life - 1 := by
      rw [← Option.some.inj hEq]
      rfl
    omega
  · simp [h2] at hEq

/-- Once `size` is at least 1 it stays at least 1 under `Particle.update`. -/
theorem particle_iterate_size_ge_one (p : Particle) (hp : 1 ≤ p.size) (n : ℕ) :
    1 ≤ (Particle.update^[n] p).size := by
  induction n with
  | zero => simpa
  | succ k _ =>
    rw [Function.iterate_succ_apply']
    exact particle_update_size_ge_one _

/-- Once `size` is at least 1 it stays at least 1 under explosion updates. -/
theorem estep_iterate_size_ge_one (q : ExplosionParticle) (hq : 1 ≤ q.size) (n : ℕ) :
    1 ≤ (ExplosionParticle.step^[n] q).size := by
  induction n with
  | zero => simpa
  | succ k _ =>
    rw [Function.iterate_succ_apply']
    exact estep_size_ge_one _

/-- Explosion updates never change `max_life`. -/
theorem estep_iterate_max_life (q : ExplosionParticle) (n : ℕ) :
    (ExplosionParticle.step^[n] q).max_life = q.max_life := by
  induction n with
  | zero => simp
  | succ k ih =>
    rw [Function.iterate_succ_apply']
    exact ih

/-- Counting by colour in a batch of freshly constructed explosion
particles: every particle of the batch carries the constructor's colour. -/
theorem countP_init_color (x y : ℚ) (c target : Color) (n : ℕ) (f : ℕ → EDraw) :
    ((List.range n).map (fun i => ExplosionParticle.init x y c (f i))).countP
        (fun p => decide (p.color = target)) = if c = target then n else 0 := by
  induction n with
  | zero => simp
  | succ k ih =>
    rw [List.range_succ, List.map_append, List.countP_append, ih]
    by_cases hc : c = target <;> simp [hc, ExplosionParticle.init, List.countP_cons]

/-! Claim theorems. -/

/-- C1: `ExplosionParticle.update` first mutates the state
(x += vx; y += vy; vy += 0.2; life -= 1; size = max(1, size - 0.15))
and then returns the post-mutation liveness `life > 0`; under the
precondition that `life > 0` before the call, it returns false exactly
when the decrement brings `life` to 0 or below. -/
theorem explosion_update_reports_post_liveness (p : ExplosionParticle) :
    ((ExplosionParticle.update p).1.x = p.x + p.vx ∧
     (ExplosionParticle.update p).1.y = p.y + p.vy ∧
     (ExplosionParticle.update p).1.vy = p.vy + 1/5 ∧
     (ExplosionParticle.update p).1.life = p.life - 1 ∧
     (ExplosionParticle.update p).1.size = max 1 (p.size - 3/20)) ∧
    ((ExplosionParticle.update p).2 = true ↔ 0 < (ExplosionParticle.update p).1.life) ∧
    (0 < p.life → ((ExplosionParticle.update p).2 = false ↔ p.life - 1 ≤ 0)) := by
  refine ⟨⟨rfl, rfl, rfl, rfl, rfl⟩, ?_, fun _ => ?_⟩
  · simp [ExplosionParticle.update]
  · simp only [ExplosionParticle.update, decide_eq_false_iff_not, not_lt]

/-- C1 witness: on the sample particle `ep1` with `life = 1`, the update
returns false and indeed 1 - 1 ≤ 0. -/
theorem explosion_update_reports_post_liveness_witness :
    (ExplosionParticle.update ep1).2 = false ↔ ep1.life - 1 ≤ 0 :=
  (explosion_update_reports_post_liveness ep1).2.2 (by norm_num [ep1])

/-- C2: after any positive number of `ExplosionManager.update` calls,
every particle remaining in the manager's collection has `life > 0`. -/
theorem manager_update_keeps_only_alive (m : ExplosionManager) (n : ℕ) (h : 1 ≤ n)
    (q : ExplosionParticle) (hq : q ∈ ((ExplosionManager.update)^[n] m).particles) :
    0 < q.life := by
  obtain ⟨k, rfl⟩ : ∃ k, n = k + 1 := ⟨n - 1, by omega⟩
  rw [Function.iterate_succ_apply'] at hq
  exact mem_update_alive _ q hq

/-- C2 witness: the sample manager `m0` after one update holds exactly
the updated `ep0`, which the theorem shows has positive life. -/
theorem manager_update_keeps_only_alive_witness : 0 < (ExplosionParticle.step ep0).life := by
  have hlist : ((ExplosionManager.update)^[1] m0).particles = [ExplosionParticle.step ep0] := by
    simp [ExplosionManager.update, m0, ExplosionParticle.step, ExplosionParticle.update,
      ep0, ExplosionParticle.init]
  exact manager_update_keeps_only_alive m0 1 (by norm_num) _
    (by rw [hlist]; exact List.mem_cons_self _ _)

/-- C3: a freshly constructed `Particle` (any sampled draws) is dead
after exactly 30 = `lifetime` updates; in general `is_dead` is true
exactly when `age ≥ lifetime` or `size ≤ 1`. -/
theorem particle_dead_after_lifetime (x y : ℚ) (c : Color) (sz : ℤ) (vx vy : ℚ) :
    (Particle.update^[30] (Particle.init x y c sz vx vy)).is_dead = true ∧
    ∀ p : Particle, p.is_dead = true ↔ (p.lifetime ≤ p.age ∨ p.size ≤ 1) := by
  constructor
  · simp only [Particle.is_dead, particle_iterate_age, particle_iterate_lifetime]
    simp [Particle.init]
  · intro p
    simp [Particle.is_dead]

/-- C7: the size of either particle kind never drops below 1: one update
clamps it to at least 1, and from any state with `size ≥ 1` (true of
every constructed particle) it stays at least 1 through any number of
updates. -/
theorem size_never_below_one :
    (∀ p : Particle, 1 ≤ p.size → ∀ n : ℕ, 1 ≤ (Particle.update^[n] p).size) ∧
    (∀ q : ExplosionParticle, 1 ≤ q.size → ∀ n : ℕ, 1 ≤ (ExplosionParticle.step^[n] q).size) ∧
    (∀ (p : Particle) (n : ℕ), 1 ≤ n → 1 ≤ (Particle.update^[n] p).size) ∧
    (∀ (q : ExplosionParticle) (n : ℕ), 1 ≤ n → 1 ≤ (ExplosionParticle.step^[n] q).size) := by
  refine ⟨fun p hp n => particle_iterate_size_ge_one p hp n,
          fun q hq n => estep_iterate_size_ge_one q hq n, ?_, ?_⟩
  · intro p n hn
    obtain ⟨k, rfl⟩ : ∃ k, n = k + 1 := ⟨n - 1, by omega⟩
    rw [Function.iterate_succ_apply']
    exact particle_update_size_ge_one _
  · intro q n hn
    obtain ⟨k, rfl⟩ : ∃ k, n = k + 1 := ⟨n - 1, by omega⟩
    rw [Function.iterate_succ_apply']
    exact estep_size_ge_one _

/-- C7 witness: the sample particles `p0` (size 3) and `ep0` (size 4)
keep size at least 1 after two updates. -/
theorem size_never_below_one_witness :
    1 ≤ (Particle.update^[2] p0).size ∧ 1 ≤ (ExplosionParticle.step^[2] ep0).size :=
  ⟨size_never_below_one.1 p0 (by norm_num [p0, Particle.init]) 2,
   size_never_below_one.2.1 ep0 (by norm_num [ep0, ExplosionParticle.init]) 2⟩

/-- C9: `Fireball.update` only ever assigns false to `active`: once a
fireball is inactive, no update ever reactivates it. -/
theorem fireball_active_never_reactivates (f : Fireball) (d : FDraw)
    (h : f.active = false) : (Fireball.update f d).active = false := by
  simp only [Fireball.update]
  split
  · rfl
  · exact h

/-- C9 witness: the deactivated sample fireball `f9` stays inactive
after an update. -/
theorem fireball_active_never_reactivates_witness : (Fireball.update f9 d0).active = false :=
  fireball_active_never_reactivates f9 d0 rfl

/-- C10: `ExplosionParticle.update` leaves `color`, `max_life`,
`glow_size` and `vx` unchanged, and `max_life` equals the `life`
sampled at construction, after any number of updates. -/
theorem explosion_update_preserves_fields (p : ExplosionParticle)
    (x y : ℚ) (c : Color) (d : EDraw) (n : ℕ) :
    ((ExplosionParticle.update p).1.color = p.color ∧
     (ExplosionParticle.update p).1.max_life = p.max_life ∧
     (ExplosionParticle.update p).1.glow_size = p.glow_size ∧
     (ExplosionParticle.update p).1.vx = p.vx) ∧
    (ExplosionParticle.init x y c d).max_life = (ExplosionParticle.init x y c d).life ∧
    (ExplosionParticle.step^[n] (ExplosionParticle.init x y c d)).max_life
      = (ExplosionParticle.init x y c d).life := by
  refine ⟨⟨rfl, rfl, rfl, rfl⟩, rfl, ?_⟩
  rw [estep_iterate_max_life]
  rfl

/-- C4: `Fireball.__init__` sets the velocity to the unit direction from
source to target scaled by speed 12 whenever source ≠ target; if source
equals target it sets (0, -12); for source (0,0) and target (0,100) it
sets (0, 12).  `dist` models `math.sqrt(dx^2 + dy^2)` through the two
hypotheses. -/
theorem fireball_init_velocity (x y tx ty dist : ℚ) (img : Option Unit)
    (h0 : 0 ≤ dist) (h1 : dist * dist = (tx - x)^2 + (ty - y)^2) :
    ((tx, ty) ≠ (x, y) →
        0 < dist ∧
        (Fireball.init x y tx ty img dist).vx = (tx - x) / dist * 12 ∧
        (Fireball.init x y tx ty img dist).vy = (ty - y) / dist * 12) ∧
    ((tx, ty) = (x, y) →
        (Fireball.init x y tx ty img dist).vx = 0 ∧
        (Fireball.init x y tx ty img dist).vy = -12) ∧
    (x = 0 ∧ y = 0 ∧ tx = 0 ∧ ty = 100 →
        (Fireball.init x y tx ty img dist).vx = 0 ∧
        (Fireball.init x y tx ty img dist).vy = 12) := by
  refine ⟨fun hne => ?_, fun heq => ?_, fun hc => ?_⟩
  · have hdist : dist ≠ 0 := by
      intro hz
      rw [hz, mul_zero] at h1
      have h2 : tx - x = 0 ∧ ty - y = 0 := by
        constructor <;> nlinarith [sq_nonneg (tx - x), sq_nonneg (ty - y)]
      exact hne (Prod.ext (by linarith [h2.1]) (by linarith [h2.2]))
    have hpos : 0 < dist := lt_of_le_of_ne h0 (Ne.symm hdist)
    exact ⟨hpos, by simp [Fireball.init, hpos], by simp [Fireball.init, hpos]⟩
  · have h2 : tx = x ∧ ty = y := Prod.mk.injEq .. ▸ heq
    have hz : dist = 0 := by
      have : dist * dist = 0 := by rw [h1, h2.1, h2.2]; ring
      exact mul_self_eq_zero.mp this
    simp [Fireball.init, hz]
  · obtain ⟨hx, hy, htx, hty⟩ := hc
    subst hx; subst hy; subst htx; subst hty
    have h2 : (dist - 100) * (dist + 100) = 0 := by nlinarith
    rcases mul_eq_zero.mp h2 with h | h
    · have hd : dist = 100 := by linarith
      subst hd
      constructor
      · simp [Fireball.init]
      · show (if (0:ℚ) < 100 then (100 - 0) / 100 * 12 else -12) = 12
        norm_num
    · linarith

/-- C4 witness: source (0,0), target (0,100), distance 100 gives
velocity (0, 12). -/
theorem fireball_init_velocity_witness :
    (Fireball.init 0 0 0 100 none 100).vx = 0 ∧ (Fireball.init 0 0 0 100 none 100).vy = 12 :=
  (fireball_init_velocity 0 0 0 100 100 none (by norm_num) (by norm_num)).2.2
    ⟨rfl, rfl, rfl, rfl⟩

/-- C5: `Fireball.update` sets `active` to false whenever the post-move
position lies outside the play field (x outside [-50, 750] or y outside
[-50, 800]); in particular an update that carries the fireball to
x = 760 deactivates it. -/
theorem fireball_update_deactivates_offscreen (f : Fireball) (d : FDraw) :
    (((Fireball.update f d).x < -50 ∨ 750 < (Fireball.update f d).x ∨
      (Fireball.update f d).y < -50 ∨ 800 < (Fireball.update f d).y) →
        (Fireball.update f d).active = false) ∧
    (f.x + f.vx = 760 → (Fireball.update f d).active = false) := by
  constructor
  · intro h
    have hx : (Fireball.update f d).x = f.x + f.vx := rfl
    have hy : (Fireball.update f d).y = f.y + f.vy := rfl
    rw [hx, hy] at h
    show (if f.y + f.vy < -50 ∨ 800 < f.y + f.vy ∨ f.x + f.vx < -50 ∨ 750 < f.x + f.vx
          then false else f.active) = false
    rw [if_pos (by tauto)]
  · intro h
    have hx : (750:ℚ) < f.x + f.vx := by rw [h]; norm_num
    show (if f.y + f.vy < -50 ∨ 800 < f.y + f.vy ∨ f.x + f.vx < -50 ∨ 750 < f.x + f.vx
          then false else f.active) = false
    rw [if_pos (by tauto)]

/-- C5 witness: the sample fireball `f0` at x = 755 with vx = 5 reaches
x = 760 on its update and is deactivated. -/
theorem fireball_update_deactivates_offscreen_witness :
    (Fireball.update f0 d0).active = false :=
  (fireball_update_deactivates_offscreen f0 d0).2 (by norm_num [f0])

/-- C6: `create_explosion` appends exactly `num_particles + 35`
particles; with the default arguments (colour (255,200,50),
`num_particles = 50`) it appends exactly 85: 50 with the default
colour, 20 white, 15 orange. -/
theorem create_explosion_spawn_counts (m : ExplosionManager) (x y : ℚ) (c : Color)
    (num : ℕ) (draws : ℕ → EDraw) :
    (ExplosionManager.create_explosion m x y c num draws).particles.length
      = m.particles.length + (num + 35) ∧
    (ExplosionManager.create_explosion m x y (255, 200, 50) 50 draws).particles.length
      = m.particles.length + 85 ∧
    ((ExplosionManager.create_explosion m x y (255, 200, 50) 50 draws).particles.drop
        m.particles.length).countP (fun p => decide (p.color = (255, 200, 50))) = 50 ∧
    ((ExplosionManager.create_explosion m x y (255, 200, 50) 50 draws).particles.drop
        m.particles.length).countP (fun p => decide (p.color = (255, 255, 255))) = 20 ∧
    ((ExplosionManager.create_explosion m x y (255, 200, 50) 50 draws).particles.drop
        m.particles.length).countP (fun p => decide (p.color = (255, 150, 0))) = 15 := by
  have hdrop : ∀ (col : Color) (k : ℕ),
      (ExplosionManager.create_explosion m x y col k draws).particles.drop m.particles.length
        = (List.range k).map (fun i => ExplosionParticle.init x y col (draws i))
          ++ ((List.range 20).map
                (fun i => ExplosionParticle.init x y (255, 255, 255) (draws (k + i)))
            ++ (List.range 15).map
                (fun i => ExplosionParticle.init x y (255, 150, 0) (draws (k + 20 + i)))) := by
    intro col k
    simp only [ExplosionManager.create_explosion, List.append_assoc]
    exact List.drop_left _ _
  refine ⟨?_, ?_, ?_, ?_, ?_⟩
  · simp only [ExplosionManager.create_explosion, List.length_append, List.length_map,
      List.length_range]
    omega
  · simp only [ExplosionManager.create_explosion, List.length_append, List.length_map,
      List.length_range]
  · rw [hdrop]
    simp only [List.countP_append, countP_init_color]
    norm_num [Prod.ext_iff]
  · rw [hdrop]
    simp only [List.countP_append, countP_init_color]
    norm_num [Prod.ext_iff]
  · rw [hdrop]
    simp only [List.countP_append, countP_init_color]
    norm_num [Prod.ext_iff]

/-- On a nonnegative rational, truncation toward zero is the floor. -/
theorem truncQ_nonneg (q : ℚ) (h : 0 ≤ q) : truncQ q = ⌊q⌋ := by
  simp only [truncQ]
  rw [if_neg (not_lt.mpr h)]

/-- C8 counterexample: the claim places the circle at the rounded
position, but `Particle.draw` truncates toward zero: the sample live
particle `p8` at x = 2.7 is drawn at x-centre 2, not round(2.7) = 3. -/
theorem particle_draw_round_counterexample :
    Particle.draw p8 ≠ [DrawCmd.circle p8.color (round p8.x, round p8.y) (truncQ p8.size)] := by
  have ht : truncQ p8.x = 2 := by
    rw [truncQ_nonneg p8.x (by norm_num [p8])]
    show ⌊(27/10 : ℚ)⌋ = 2
    rw [Int.floor_eq_iff]
    norm_num
  have hty : truncQ p8.y = 0 := by
    rw [truncQ_nonneg p8.y (by norm_num [p8])]
    show ⌊(0 : ℚ)⌋ = 0
    exact Int.floor_zero
  have hts : truncQ p8.size = 3 := by
    rw [truncQ_nonneg p8.size (by norm_num [p8])]
    show ⌊(3 : ℚ)⌋ = 3
    rw [Int.floor_eq_iff]
    norm_num
  have hr : round p8.x = 3 := by
    show round (27/10 : ℚ) = 3
    rw [round_eq, show (27/10 : ℚ) + 1/2 = 16/5 by norm_num]
    rw [Int.floor_eq_iff]
    norm_num
  have hry : round p8.y = 0 := by
    show round (0 : ℚ) = 0
    exact round_zero
  have hdraw : Particle.draw p8 = [DrawCmd.circle (255, 0, 0) (2, 0) 3] := by
    simp only [Particle.draw]
    rw [if_pos (show p8.age < p8.lifetime by norm_num [p8])]
    rw [ht, hty, hts]
    rfl
  rw [hdraw, hr, hry, hts]
  simp [p8]

/-- C8 (amended): for `age < lifetime`, `Particle.draw` emits exactly
one filled-circle command at the truncated-toward-zero position
(int(x), int(y)) with the truncated size int(size) and the particle's
colour; for `age ≥ lifetime` it emits nothing. -/
theorem particle_draw_truncates (p : Particle) :
    (p.age < p.lifetime →
      Particle.draw p = [DrawCmd.circle p.color (truncQ p.x, truncQ p.y) (truncQ p.size)]) ∧
    (p.lifetime ≤ p.age → Particle.draw p = []) := by
  constructor
  · intro h
    simp only [Particle.draw]
    rw [if_pos h]
  · intro h
    simp only [Particle.draw]
    rw [if_neg (by omega)]

/-- C8 witness: the live sample particle `p8` emits its one truncated
circle command, and the expired `p8dead` emits nothing. -/
theorem particle_draw_truncates_witness :
    Particle.draw p8 = [DrawCmd.circle p8.color (truncQ p8.x, truncQ p8.y) (truncQ p8.size)] ∧
    Particle.draw p8dead = [] :=
  ⟨(particle_draw_truncates p8).1 (by norm_num [p8]),
   (particle_draw_truncates p8dead).2 (by norm_num [p8dead, p8])⟩

/-- C3 witness: the sample constructed particle `p0` is dead after 30
updates. -/
theorem particle_dead_after_lifetime_witness :
    (Particle.update^[30] (Particle.init 0 0 (255, 0, 0) 3 1 (-2))).is_dead = true :=
  (particle_dead_after_lifetime 0 0 (255, 0, 0) 3 1 (-2)).1

/-- C6 witness: on the sample manager `m0` a default explosion grows the
collection by 85. -/
theorem create_explosion_spawn_counts_witness :
    (ExplosionManager.create_explosion m0 0 0 (255, 200, 50) 50
        (fun _ => ⟨1, 0, 2, 4, 25, 15⟩)).particles.length = m0.particles.length + 85 :=
  (create_explosion_spawn_counts m0 0 0 (255, 200, 50) 50 (fun _ => ⟨1, 0, 2, 4, 25, 15⟩)).2.1

/-- C10 witness: after two updates of a freshly constructed sample
particle, `max_life` still equals the `life` sampled at construction. -/
theorem explosion_update_preserves_fields_witness :
    (ExplosionParticle.step^[2] (ExplosionParticle.init 0 0 (255, 200, 50) ⟨1, 0, 2, 4, 25, 15⟩)).max_life
      = (ExplosionParticle.init 0 0 (255, 200, 50) ⟨1, 0, 2, 4, 25, 15⟩).life :=
  (explosion_update_preserves_fields ep0 0 0 (255, 200, 50) ⟨1, 0, 2, 4, 25, 15⟩ 2).2.2
